import Mathlib

set_option autoImplicit false

/-!
Verification of the SCOTUS IRAC generator backend.

The repository holds two variants of the same Flask backend:
`src/app_new.py` (the coherent, current handler) and `src/app.py`
(an older variant whose code after its first `try/except` is unreachable).
This file gives a shallow embedding of the request-processing pipeline of
both handlers — upload validation, input sanitization, cache lookup,
prompt construction, remote-call outcome handling and response shaping —
and proves or refutes the claims of the specification about them.

External effects are modelled as data carried by the request: the outcome
of PDF text extraction and the outcome of the OpenAI chat-completion call
are fields of the request record, since both are opaque external
collaborators.  The MD5 hex digest used for cache keys is abstracted as a
function parameter `md5hex`; every theorem is proved for an arbitrary such
function, hence in particular for real MD5.
-/

namespace ScotusIrac

/-- Constant `MAX_CONTENT_LENGTH = 16 * 1024 * 1024` from src/app_new.py line 20 and
src/app.py line 19 (16 MiB upload ceiling). -/
def MAX_CONTENT_LENGTH : Nat := 16 * 1024 * 1024

/-- Constant `ALLOWED_EXTENSIONS`, the singleton set holding `pdf`, from src/app_new.py line 21. -/
def ALLOWED_EXTENSIONS : List String := ["pdf"]

/-- Cache TTL in seconds: `TTLCache(maxsize=100, ttl=300)`, src/app_new.py line 70. -/
def TTL : Nat := 300

/-- Characters kept by `sanitize_input`: the Python regex `[^\x20-\x7E\n]`
deletes its matches, so a character survives iff it is printable ASCII or a
newline (src/app_new.py line 82, src/app.py line 81). -/
def printableOrNewline (c : Char) : Bool :=
  (0x20 ≤ c.toNat && c.toNat ≤ 0x7E) || c = '\n'

/-- Embedding of `sanitize_input` (src/app_new.py lines 77-82, src/app.py lines
76-81): an early return of the empty string on falsy input, then a regex
substitution deleting every character the regex of line 82 matches.
The argument is an `Option` so that Python `None` is representable; Python
truthiness makes both `None` and `""` take the early-return branch. -/
def sanitize_input (text : Option String) : String :=
  match text with
  | none => ""
  | some s => if s = "" then "" else ⟨s.data.filter printableOrNewline⟩

/-- The part of a character list after its last dot, as computed by
Python `filename.rsplit('.', 1)[1]` when a dot is present. -/
def afterLastDot (s : List Char) : List Char :=
  (s.reverse.takeWhile (fun c => c ≠ '.')).reverse

/-- ASCII lowercasing of a character list, modelling `str.lower()` on the
ASCII filenames involved. -/
def lowerAscii (s : List Char) : List Char := s.map Char.toLower

/-- Embedding of `allowed_file` (src/app_new.py lines 73-75): the filename
must contain a dot and the lowercased part after its last dot must be a
member of `ALLOWED_EXTENSIONS`. -/
def allowed_file (filename : String) : Bool :=
  filename.data.contains '.' &&
    ALLOWED_EXTENSIONS.contains ⟨lowerAscii (afterLastDot filename.data)⟩

/-- Characters stripped by Python `str.strip()` with no argument
(ASCII whitespace; the Unicode extras are irrelevant to these sources). -/
def pyWhitespace (c : Char) : Bool :=
  ([' ', '\t', '\n', '\x0d', '\x0b', '\x0c'] : List Char).contains c

/-- Python `s.strip()`: remove leading and trailing whitespace. -/
def pyStrip (s : String) : String :=
  ⟨((s.data.dropWhile pyWhitespace).reverse.dropWhile pyWhitespace).reverse⟩

/-- Python slicing `s[:n]`: the first `n` code points of `s`. -/
def pySlice (s : String) (n : Nat) : String := ⟨s.data.take n⟩

/-- Lowercase hex digit, as used by `json.dumps` unicode escapes. -/
def hexDigit (n : Nat) : Char := ("0123456789abcdef".data.getD n '0')

/-- A `\uXXXX` escape for a code unit `n < 0x10000`. -/
def uEscape (n : Nat) : List Char :=
  ['\\', 'u', hexDigit (n / 4096 % 16), hexDigit (n / 256 % 16),
   hexDigit (n / 16 % 16), hexDigit (n % 16)]

/-- Escaping of one character in a JSON string literal as produced by
`json.dumps` with its defaults (`ensure_ascii=True`): short escapes for the
usual control characters, `\uXXXX` for other controls and for non-ASCII,
surrogate pairs beyond the BMP. -/
def jsonEscapeChar (c : Char) : List Char :=
  if c = '"' then ['\\', '"']
  else if c = '\\' then ['\\', '\\']
  else if c = '\n' then ['\\', 'n']
  else if c = '\t' then ['\\', 't']
  else if c = '\x0d' then ['\\', 'r']
  else if c = '\x08' then ['\\', 'b']
  else if c = '\x0c' then ['\\', 'f']
  else if c.toNat < 0x20 then uEscape c.toNat
  else if c.toNat < 0x7f then [c]
  else if c.toNat ≤ 0xffff then uEscape c.toNat
  else uEscape (0xd800 + (c.toNat - 0x10000) / 0x400) ++
       uEscape (0xdc00 + (c.toNat - 0x10000) % 0x400)

/-- A JSON string literal for `s`, per `json.dumps`. -/
def jsonStringLit (s : String) : List Char :=
  '"' :: (s.data.flatMap jsonEscapeChar) ++ ['"']

/-- Python `json.dumps(args, sort_keys=True)` applied to a tuple of strings:
`sort_keys` is inert on arrays, elements are joined with a comma and space. -/
def jsonDumpsList (args : List String) : String :=
  ⟨'[' :: (((args.map jsonStringLit).intersperse [',', ' ']).flatten) ++ [']']⟩

/-- Embedding of `generate_cache_key` (src/app_new.py lines 84-86):
`hashlib.md5(json.dumps(args, sort_keys=True).encode()).hexdigest()`.
The MD5 hex digest is abstracted as the function parameter `md5hex`;
all theorems below hold for every choice of `md5hex`. -/
def generate_cache_key (md5hex : String → String) (args : List String) : String :=
  md5hex (jsonDumpsList args)

/-- The success payload stored in the response cache and returned as the
JSON body on success (src/app_new.py lines 213-218). -/
structure IracResult where
  analysis : String
  model : String
  usage : List (String × Nat)
  cached : Bool
deriving DecidableEq

/-- One entry of the `TTLCache`: key, value, and absolute expiry time
(insertion time plus TTL). -/
structure CacheEntry where
  key : String
  val : IracResult
  expiry : Nat
deriving DecidableEq

/-- The response cache, modelled as an association list.  The `maxsize`
eviction of `TTLCache` only ever removes entries and is not load-bearing
for any claim, so it is elided. -/
abbrev Cache := List CacheEntry

/-- Lookup modelling `cache_key in response_cache` followed by the indexing
`response_cache[cache_key]`:
an entry is visible iff it exists and is unexpired (`now < expiry`),
matching `cachetools.TTLCache` semantics. -/
def cacheLookup (c : Cache) (now : Nat) (k : String) : Option IracResult :=
  match c.find? (fun e => e.key == k) with
  | some e => if now < e.expiry then some e.val else none
  | none => none

/-- Store modelling `response_cache[cache_key] = result` (src/app_new.py
line 221): insert
with expiry `now + TTL`, replacing any previous entry for the key. -/
def cachePut (c : Cache) (k : String) (v : IracResult) (now : Nat) : Cache :=
  ⟨k, v, now + TTL⟩ :: c.filter (fun e => !(e.key == k))

/-- The verbose template of src/app_new.py lines 172-186, selected for role
`law_student`; the source indentation of the f-string (twelve spaces on each
continuation line, including the blank-looking ones) is part of the text. -/
def student_prompt (case_name text : String) : String :=
  "Generate a detailed IRAC analysis for the following case: " ++ case_name ++
  "\n            \n            " ++ text ++
  "\n            \n            Please structure your response with these sections:\n            1. Case Citation\n            2. Procedural History\n            3. Issues\n            4. Rules\n            5. Analysis\n            6. Conclusion\n            7. Significance\n            8. Related Cases\n            \n            Include proper legal citations and analysis."

/-- The condensed template of src/app_new.py lines 188-199, used for every
role other than `law_student` (the `else:  # paralegal` branch). -/
def paralegal_prompt (case_name text : String) : String :=
  "Create a concise case summary for " ++ case_name ++ " with these sections:" ++
  "\n            \n            " ++ text ++
  "\n            \n            1. Case Citation\n            2. Key Facts\n            3. Holding\n            4. Rule of Law\n            5. Practical Implications\n            6. Checklist for Use\n            \n            Focus on practical applications and use bullet points for readability."

/-- The role dispatch of src/app_new.py lines 170-199:
an equality test of `role` against `law_student` selects the verbose
template, everything else
falls to the `else:  # paralegal` branch. -/
def build_prompt (role case_name text : String) : String :=
  if role = "law_student" then student_prompt case_name text
  else paralegal_prompt case_name text

/-- Failure classes of the OpenAI client (`openai.AuthenticationError`,
`openai.RateLimitError`, `openai.APIError`, anything else). -/
inductive ApiErrKind
  | auth
  | rateLimit
  | apiErr
  | generic
deriving DecidableEq

/-- A raised completion-client exception: its class and its message text. -/
structure ApiErr where
  kind : ApiErrKind
  msg : String
deriving DecidableEq

/-- A successful completion response: generated content, model identifier,
and token-usage accounting. -/
structure ApiOk where
  content : String
  model : String
  usage : List (String × Nat)
deriving DecidableEq

/-- Outcome of the chat-completion call, abstracting the remote service. -/
inductive ApiOutcome
  | fail (e : ApiErr)
  | ok (r : ApiOk)
deriving DecidableEq

/-- Outcome of `extract_text_from_pdf` in src/app_new.py lines 88-98: either
the `ValueError` it raises on parse failure, or the concatenated page text. -/
inductive Extraction
  | failed (msg : String)
  | extracted (text : String)
deriving DecidableEq

/-- JSON body of a handler response: a success payload or an error object
whose `error` field is `e`. -/
inductive Body
  | result (r : IracResult)
  | errMsg (e : String)
deriving DecidableEq

/-- One `POST /api/generate_irac` request to src/app_new.py, with the
outcomes of its two external effects (PDF extraction, OpenAI call) carried
as data. -/
structure ReqNew where
  contentLength : Nat
  hasFile : Bool
  filename : String
  roleParam : Option String
  caseNameParam : Option String
  extraction : Extraction
  api : ApiOutcome
deriving DecidableEq

/-- Observable outcome of one handler run: HTTP status, JSON body, the
cache after the run, whether extraction was attempted, whether the
completion client was invoked, and the prompt sent to it (if any). -/
structure HandlerOutput where
  status : Nat
  body : Body
  cache : Cache
  extractCalled : Bool
  apiCalled : Bool
  promptSent : Option String
deriving DecidableEq

/-- The role field: `request.form.get` of `role` with default `law_student`,
src/app_new.py line 150. -/
def request_role (req : ReqNew) : String := req.roleParam.getD "law_student"

/-- The sanitized case name: `sanitize_input` of `request.form.get` of
`case_name` with default `Unnamed Case`, src/app_new.py line 151. -/
def request_case_name (req : ReqNew) : String :=
  sanitize_input (some (req.caseNameParam.getD "Unnamed Case"))

/-- The fingerprint of a request: `generate_cache_key` applied to the
filename, the role and the sanitized case name, src/app_new.py line 154. -/
def request_cache_key (md5hex : String → String) (req : ReqNew) : String :=
  generate_cache_key md5hex [req.filename, request_role req, request_case_name req]

/-- The `generate_irac` handler of src/app_new.py lines 131-234 as a pure
function of the cache, the current time and the request.

Branches, in source order: `RequestEntityTooLarge` (raised on first access
to the oversized request body, caught by line 230) gives 413; missing file
part, empty filename and disallowed extension give 400; an unexpired cache
entry for the fingerprint is returned as-is; extraction failure and
blank extracted text give 400; a completion-client exception gives 500;
success stores the result (with `cached: False`; the second
`result["cached"] = False` on line 222 rewrites the same field of the same
object and is a no-op) and returns it. -/
def generate_irac (md5hex : String → String) (c : Cache) (now : Nat)
    (req : ReqNew) : HandlerOutput :=
  if MAX_CONTENT_LENGTH < req.contentLength then
    ⟨413, .errMsg "File too large", c, false, false, none⟩
  else if !req.hasFile then
    ⟨400, .errMsg "No file part", c, false, false, none⟩
  else if req.filename = "" then
    ⟨400, .errMsg "No selected file", c, false, false, none⟩
  else if !allowed_file req.filename then
    ⟨400, .errMsg "Invalid file type. Only PDF files are allowed.", c, false, false, none⟩
  else
    match cacheLookup c now (request_cache_key md5hex req) with
    | some v => ⟨200, .result v, c, false, false, none⟩
    | none =>
      match req.extraction with
      | .failed _ => ⟨400, .errMsg "Error processing PDF file", c, true, false, none⟩
      | .extracted text =>
        if pyStrip text = "" then
          ⟨400, .errMsg "The uploaded PDF appears to be empty or could not be read",
            c, true, false, none⟩
        else
          match req.api with
          | .fail _ =>
            ⟨500, .errMsg "Error generating analysis. Please try again later.",
              c, true, true,
              some (build_prompt (request_role req) (request_case_name req) text)⟩
          | .ok s =>
            ⟨200, .result ⟨s.content, s.model, s.usage, false⟩,
              cachePut c (request_cache_key md5hex req) ⟨s.content, s.model, s.usage, false⟩ now,
              true, true,
              some (build_prompt (request_role req) (request_case_name req) text)⟩

/-! ### The older handler variant, src/app.py -/

/-- The filename check of src/app.py line 139: the lowercased filename must
end in `.pdf`. -/
def endswith_pdf (filename : String) : Bool :=
  List.isSuffixOf ".pdf".data (lowerAscii filename.data)

/-- Embedding of `extract_text_from_pdf` of src/app.py lines 122-129.  The
first statement of its body references `PdfReader`, a name never bound in
src/app.py (the module only has `import PyPDF2`, line 13), so for every
input it raises `NameError`, which its own `except Exception` catches,
returning the empty string. -/
def extract_text_from_pdf (_pdfBytes : String) : String := ""

/-- The single prompt of src/app.py lines 153-160: a generic template
interpolating the case name, the raw role string, and the first 3000
characters of the extracted text (`case_text[:3000]`); the eight-space
source indentation of the f-string is part of the text. -/
def simple_prompt (case_name role case_text : String) : String :=
  "Create an IRAC (Issue, Rule, Analysis, Conclusion) summary for this legal case." ++
  "\n        Case: " ++ case_name ++ "\n        Role: " ++ role ++
  "\n        \n        " ++ pySlice case_text 3000 ++
  "\n        \n        Provide a clear IRAC analysis in plain text.\n        "

/-- One `POST /api/generate_irac` request to src/app.py (file field `pdf`,
form fields `role`, `caseName`, `docketNumber`), with the completion-call
outcome carried as data.  `pdfBytes` stands for the uploaded stream handed
to the extractor. -/
structure ReqOld where
  contentLength : Nat
  hasPdf : Bool
  filename : String
  pdfBytes : String
  roleParam : Option String
  caseNameParam : Option String
  docketParam : Option String
  api : ApiOutcome
deriving DecidableEq

/-- JSON body of an src/app.py handler response: a `summary` object or an
`error` object. -/
inductive OldBody
  | summary (s : String)
  | errMsg (e : String)
deriving DecidableEq

/-- Observable outcome of one src/app.py handler run. -/
structure OldOutput where
  status : Nat
  body : OldBody
  apiCalled : Bool
deriving DecidableEq

/-- The `try`/`except` statement of src/app.py lines 133-174, with each
`return` embedded as `some`; a `none` result would mean control fell
through the statement without returning, reaching line 176.

Branches, in source order: `RequestEntityTooLarge` on an oversized body
(raised on first access to `request.files`) is caught by the generic
`except Exception` of line 172, giving 500; missing `pdf` field and a
filename not ending in `.pdf` give 400; the extracted text (always `""`,
see `extract_text_from_pdf`) is checked for blankness, giving 400; then
form defaults are read, the prompt is built, and the completion call either
returns 200 with the stripped content as the `summary`, or raises into the
line-172 handler, giving 500. -/
def generate_irac_try (req : ReqOld) : Option OldOutput :=
  if MAX_CONTENT_LENGTH < req.contentLength then
    some ⟨500, .errMsg "Failed to process request", false⟩
  else if !req.hasPdf then
    some ⟨400, .errMsg "No file provided", false⟩
  else if !endswith_pdf req.filename then
    some ⟨400, .errMsg "File must be a PDF", false⟩
  else
    let case_text := extract_text_from_pdf req.pdfBytes
    if pyStrip case_text = "" then
      some ⟨400, .errMsg "Could not read PDF content", false⟩
    else
      let role := req.roleParam.getD "student"
      let case_name := req.caseNameParam.getD "Case"
      let _docket_number := req.docketParam.getD ""
      let _prompt := simple_prompt case_name role case_text
      match req.api with
      | .fail _ => some ⟨500, .errMsg "Failed to process request", true⟩
      | .ok s => some ⟨200, .summary (pyStrip s.content), true⟩

/-- The full `generate_irac` of src/app.py lines 131-345: the
`try`/`except` of lines 133-174 followed by the region of lines 176-345.
That region has no well-defined meaning (line 182 leaves stray tokens after
a closed f-string, lines 240 and 343 have an orphaned `else:` and
`except:`), so its semantics is an arbitrary function `dead`; the Boolean
output records whether control ever entered it. -/
def generate_irac_full (dead : ReqOld → OldOutput) (req : ReqOld) :
    OldOutput × Bool :=
  match generate_irac_try req with
  | some r => (r, false)
  | none => (dead req, true)

/-- The observable behaviour of the src/app.py handler: the value computed
by lines 131-174 (the choice of fallback is immaterial: `generate_irac_try`
never returns `none`, as proved below). -/
def generate_irac_old (req : ReqOld) : OldOutput :=
  (generate_irac_try req).getD ⟨500, .errMsg "Failed to process request", false⟩

/-! ### Infrastructure lemmas -/

/-- A request that passes all four upload-validation checks of
src/app_new.py lines 135-147. -/
def validated (req : ReqNew) : Prop :=
  req.contentLength ≤ MAX_CONTENT_LENGTH ∧ req.hasFile = true ∧
    req.filename ≠ "" ∧ allowed_file req.filename = true

instance (req : ReqNew) : Decidable (validated req) := by
  unfold validated; infer_instance

theorem data_append (a b : String) : (a ++ b).data = a.data ++ b.data := rfl

theorem cacheLookup_mem (c : Cache) (now : Nat) (k : String) (v : IracResult)
    (h : cacheLookup c now k = some v) : ∃ e ∈ c, e.val = v := by
  cases hf : c.find? (fun e => e.key == k) with
  | none => simp [cacheLookup, hf] at h
  | some e =>
    simp only [cacheLookup, hf] at h
    split at h
    · exact ⟨e, List.mem_of_find?_eq_some hf, Option.some.inj h⟩
    · exact absurd h (by simp)

theorem cacheLookup_put_recent (c : Cache) (k : String) (v : IracResult)
    (t1 t2 : Nat) (h : t2 < t1 + TTL) :
    cacheLookup (cachePut c k v t1) t2 k = some v := by
  unfold cacheLookup cachePut
  rw [List.find?_cons_of_pos _ (by simp)]
  simp [h]

/-- Complete case analysis of one handler run: every output of
`generate_irac` arises from exactly one of the nine source branches, with
the branch conditions recorded. -/
theorem generate_irac_cases (md5hex : String → String) (c : Cache) (now : Nat)
    (req : ReqNew) (out : HandlerOutput) (h : generate_irac md5hex c now req = out) :
    (MAX_CONTENT_LENGTH < req.contentLength ∧
       out = ⟨413, .errMsg "File too large", c, false, false, none⟩) ∨
    (req.contentLength ≤ MAX_CONTENT_LENGTH ∧ req.hasFile = false ∧
       out = ⟨400, .errMsg "No file part", c, false, false, none⟩) ∨
    (req.contentLength ≤ MAX_CONTENT_LENGTH ∧ req.hasFile = true ∧ req.filename = "" ∧
       out = ⟨400, .errMsg "No selected file", c, false, false, none⟩) ∨
    (req.contentLength ≤ MAX_CONTENT_LENGTH ∧ req.hasFile = true ∧ req.filename ≠ "" ∧
       allowed_file req.filename = false ∧
       out = ⟨400, .errMsg "Invalid file type. Only PDF files are allowed.",
              c, false, false, none⟩) ∨
    (validated req ∧ (∃ v, cacheLookup c now (request_cache_key md5hex req) = some v ∧
       out = ⟨200, .result v, c, false, false, none⟩)) ∨
    (validated req ∧ cacheLookup c now (request_cache_key md5hex req) = none ∧
       (∃ m, req.extraction = .failed m) ∧
       out = ⟨400, .errMsg "Error processing PDF file", c, true, false, none⟩) ∨
    (validated req ∧ cacheLookup c now (request_cache_key md5hex req) = none ∧
       (∃ text, req.extraction = .extracted text ∧ pyStrip text = "") ∧
       out = ⟨400, .errMsg "The uploaded PDF appears to be empty or could not be read",
              c, true, false, none⟩) ∨
    (validated req ∧ cacheLookup c now (request_cache_key md5hex req) = none ∧
       (∃ text e, req.extraction = .extracted text ∧ pyStrip text ≠ "" ∧
         req.api = .fail e ∧
         out = ⟨500, .errMsg "Error generating analysis. Please try again later.",
                c, true, true,
                some (build_prompt (request_role req) (request_case_name req) text)⟩)) ∨
    (validated req ∧ cacheLookup c now (request_cache_key md5hex req) = none ∧
       (∃ text s, req.extraction = .extracted text ∧ pyStrip text ≠ "" ∧
         req.api = .ok s ∧
         out = ⟨200, .result ⟨s.content, s.model, s.usage, false⟩,
                cachePut c (request_cache_key md5hex req) ⟨s.content, s.model, s.usage, false⟩ now,
                true, true,
                some (build_prompt (request_role req) (request_case_name req) text)⟩)) := by
  subst h
  unfold generate_irac
  split
  next h1 => exact Or.inl ⟨h1, rfl⟩
  next h1 =>
    have h1' : req.contentLength ≤ MAX_CONTENT_LENGTH := Nat.le_of_not_lt h1
    split
    next h2 =>
      have h2' : req.hasFile = false := by simpa using h2
      exact Or.inr (Or.inl ⟨h1', h2', rfl⟩)
    next h2 =>
      have h2' : req.hasFile = true := by simpa using h2
      split
      next h3 => exact Or.inr (Or.inr (Or.inl ⟨h1', h2', h3, rfl⟩))
      next h3 =>
        split
        next h4 =>
          have h4' : allowed_file req.filename = false := by simpa using h4
          exact Or.inr (Or.inr (Or.inr (Or.inl ⟨h1', h2', h3, h4', rfl⟩)))
        next h4 =>
          have h4' : allowed_file req.filename = true := by simpa using h4
          have hv : validated req := ⟨h1', h2', h3, h4'⟩
          split
          next v heq =>
            exact Or.inr (Or.inr (Or.inr (Or.inr (Or.inl ⟨hv, v, heq, rfl⟩))))
          next heq =>
            split
            next m hm =>
              exact Or.inr (Or.inr (Or.inr (Or.inr (Or.inr (Or.inl
                ⟨hv, heq, ⟨m, hm⟩, rfl⟩)))))
            next text htext =>
              split
              next h5 =>
                exact Or.inr (Or.inr (Or.inr (Or.inr (Or.inr (Or.inr (Or.inl
                  ⟨hv, heq, ⟨text, htext, h5⟩, rfl⟩))))))
              next h5 =>
                split
                next e he =>
                  exact Or.inr (Or.inr (Or.inr (Or.inr (Or.inr (Or.inr (Or.inr (Or.inl
                    ⟨hv, heq, text, e, htext, h5, he, rfl⟩)))))))
                next s hs =>
                  exact Or.inr (Or.inr (Or.inr (Or.inr (Or.inr (Or.inr (Or.inr (Or.inr
                    ⟨hv, heq, text, s, htext, h5, hs, rfl⟩)))))))

/-- On the validated path with an unexpired cache entry for the fingerprint
of the request, the handler returns the stored value as-is: neither the
extractor nor the completion client runs and the cache is unchanged
(src/app_new.py lines 156-159). -/
theorem generate_irac_hit (md5hex : String → String) (c : Cache) (now : Nat)
    (req : ReqNew) (v : IracResult) (hv : validated req)
    (hhit : cacheLookup c now (request_cache_key md5hex req) = some v) :
    generate_irac md5hex c now req = ⟨200, .result v, c, false, false, none⟩ := by
  obtain ⟨hl, hf, hn, ha⟩ := hv
  unfold generate_irac
  rw [if_neg (by omega), if_neg (by simp [hf]), if_neg hn, if_neg (by simp [ha]), hhit]

/-- On the validated path with a cache miss, successful extraction of
non-blank text, and a successful completion call, the handler returns the
fresh result and stores it under the fingerprint of the request
(src/app_new.py lines 201-224). -/
theorem generate_irac_success (md5hex : String → String) (c : Cache) (now : Nat)
    (req : ReqNew) (text : String) (s : ApiOk) (hv : validated req)
    (hmiss : cacheLookup c now (request_cache_key md5hex req) = none)
    (htext : req.extraction = .extracted text) (hblank : pyStrip text ≠ "")
    (hapi : req.api = .ok s) :
    generate_irac md5hex c now req =
      ⟨200, .result ⟨s.content, s.model, s.usage, false⟩,
        cachePut c (request_cache_key md5hex req) ⟨s.content, s.model, s.usage, false⟩ now,
        true, true,
        some (build_prompt (request_role req) (request_case_name req) text)⟩ := by
  obtain ⟨hl, hf, hn, ha⟩ := hv
  unfold generate_irac
  rw [if_neg (by omega), if_neg (by simp [hf]), if_neg hn, if_neg (by simp [ha])]
  simp only [hmiss, htext, hapi, if_neg hblank]

/-- Every execution path of src/app.py lines 133-174 ends in a `return`:
the `try`/`except` statement always yields a response. -/
theorem generate_irac_try_isSome (req : ReqOld) : (generate_irac_try req).isSome := by
  unfold generate_irac_try
  dsimp only
  repeat' split
  all_goals simp

/-! ### Claim theorems -/

/-- Claim C9: in src/app.py, every execution of the generate_irac handler
terminates within lines 131-174 (the try block returns a response, or the
except clause returns a 500); the code at lines 176-345 is never executed
for any request — here, for any meaning `dead` that region could have, the
result of the handler is the lines-131-174 result and the region-entry flag
is false. -/
theorem dead_region_never_executes (dead : ReqOld → OldOutput) (req : ReqOld) :
    generate_irac_full dead req = (generate_irac_old req, false) := by
  obtain ⟨r, hr⟩ := Option.isSome_iff_exists.mp (generate_irac_try_isSome req)
  simp [generate_irac_full, generate_irac_old, hr]

/-- Claim C6: the output of `sanitize_input` contains only characters in
the printable ASCII range (0x20-0x7E) plus newline; empty or null input
yields the empty string; and sanitizing an already-sanitized string
returns it unchanged. -/
theorem sanitize_input_spec :
    (∀ (t : Option String) (ch : Char), ch ∈ (sanitize_input t).data →
       (0x20 ≤ ch.toNat ∧ ch.toNat ≤ 0x7E) ∨ ch = '\n') ∧
    sanitize_input none = "" ∧
    sanitize_input (some "") = "" ∧
    (∀ t : Option String, sanitize_input (some (sanitize_input t)) = sanitize_input t) := by
  refine ⟨?_, rfl, rfl, ?_⟩
  · intro t ch hc
    match t with
    | none => simp [sanitize_input] at hc
    | some s =>
      simp only [sanitize_input] at hc
      by_cases hs : s = ""
      · rw [if_pos hs] at hc
        simp at hc
      · rw [if_neg hs] at hc
        have hp := (List.mem_filter.mp hc).2
        simpa [printableOrNewline] using hp
  · intro t
    match t with
    | none => rfl
    | some s =>
      by_cases hs : s = ""
      · simp [sanitize_input, hs]
      · simp only [sanitize_input, if_neg hs]
        by_cases hf : (⟨s.data.filter printableOrNewline⟩ : String) = ""
        · rw [if_pos hf]
          exact hf.symm
        · rw [if_neg hf]
          refine congrArg String.mk ?_
          rw [List.filter_filter]
          exact List.filter_congr (fun ch _ => by rw [Bool.and_self])

/-- Witness for C6 at concrete inputs: the character kept from
sanitizing a string with a control character is printable, and a second
sanitization changes nothing. -/
theorem sanitize_input_spec_witness :
    ((0x20 ≤ 'a'.toNat ∧ 'a'.toNat ≤ 0x7E) ∨ 'a' = '\n') ∧
    sanitize_input (some (sanitize_input (some "a\x01b"))) =
      sanitize_input (some "a\x01b") :=
  ⟨sanitize_input_spec.1 (some "a\x01b") 'a' (by decide),
   sanitize_input_spec.2.2.2 (some "a\x01b")⟩

/-- Claim C5: an upload whose filename has a disallowed extension is
answered 400 before extraction is attempted; an upload exceeding the
16 MiB ceiling is answered 413 without the extractor (or anything else)
seeing it. -/
theorem upload_validation_guards (md5hex : String → String) (c : Cache)
    (now : Nat) (req : ReqNew) :
    (req.contentLength ≤ MAX_CONTENT_LENGTH → req.hasFile = true →
      allowed_file req.filename = false →
      (generate_irac md5hex c now req).status = 400 ∧
      (generate_irac md5hex c now req).extractCalled = false ∧
      (generate_irac md5hex c now req).apiCalled = false) ∧
    (MAX_CONTENT_LENGTH < req.contentLength →
      (generate_irac md5hex c now req).status = 413 ∧
      (generate_irac md5hex c now req).extractCalled = false ∧
      (generate_irac md5hex c now req).apiCalled = false) := by
  constructor
  · intro hlen hfile hext
    by_cases hname : req.filename = ""
    · simp [generate_irac, Nat.not_lt.mpr hlen, hfile, hname]
    · simp [generate_irac, Nat.not_lt.mpr hlen, hfile, hname, hext]
  · intro hlen
    simp [generate_irac, hlen]

/-- A `brief.txt` upload (disallowed extension), for the C5 witness. -/
def reqBriefTxt : ReqNew :=
  { contentLength := 1024
    hasFile := true
    filename := "brief.txt"
    roleParam := some "law_student"
    caseNameParam := some "Case"
    extraction := .extracted "text"
    api := .ok ⟨"a", "gpt-4", []⟩ }

/-- An upload one byte over the 16 MiB ceiling, for the C5 witness. -/
def reqOversized : ReqNew :=
  { reqBriefTxt with contentLength := 16 * 1024 * 1024 + 1, filename := "big.pdf" }

/-- Witness for C5: `brief.txt` is rejected 400 and the oversized upload
413, in both cases without extraction or a remote call. -/
theorem upload_validation_guards_witness :
    ((generate_irac (fun s => s) [] 0 reqBriefTxt).status = 400 ∧
     (generate_irac (fun s => s) [] 0 reqBriefTxt).extractCalled = false ∧
     (generate_irac (fun s => s) [] 0 reqBriefTxt).apiCalled = false) ∧
    ((generate_irac (fun s => s) [] 0 reqOversized).status = 413 ∧
     (generate_irac (fun s => s) [] 0 reqOversized).extractCalled = false ∧
     (generate_irac (fun s => s) [] 0 reqOversized).apiCalled = false) :=
  ⟨(upload_validation_guards (fun s => s) [] 0 reqBriefTxt).1 (by decide) rfl (by decide),
   (upload_validation_guards (fun s => s) [] 0 reqOversized).2 (by decide)⟩

/-- A request carrying the `student` role spelling, for C7. -/
def reqStudentRole : ReqNew :=
  { contentLength := 0
    hasFile := true
    filename := "roe.pdf"
    roleParam := some "student"
    caseNameParam := some "Case"
    extraction := .extracted "Facts"
    api := .ok ⟨"analysis text", "gpt-4", []⟩ }

/-- Counterexample to C7 as stated: a request with role `student` is *not*
given the verbose student template — the handler sends the condensed
paralegal prompt to the completion client. -/
theorem role_student_gets_paralegal_template :
    (generate_irac (fun s => s) [] 0 reqStudentRole).promptSent =
      some (paralegal_prompt "Case" "Facts") ∧
    (generate_irac (fun s => s) [] 0 reqStudentRole).promptSent ≠
      some (student_prompt "Case" "Facts") := by
  constructor
  · rfl
  · decide

/-- Claim C7 (amended): only the exact spelling `law_student` selects the
verbose student template; every other role value — including `student` and
`paralegal` — deterministically falls to the condensed paralegal branch. -/
theorem role_dispatch_amended (role case_name text : String) :
    (role = "law_student" → build_prompt role case_name text = student_prompt case_name text) ∧
    (role ≠ "law_student" → build_prompt role case_name text = paralegal_prompt case_name text) := by
  constructor
  · intro h; simp [build_prompt, h]
  · intro h; simp [build_prompt, h]

/-- Witness for C7 (amended) at the three role spellings of interest. -/
theorem role_dispatch_amended_witness :
    build_prompt "law_student" "C" "T" = student_prompt "C" "T" ∧
    build_prompt "paralegal" "C" "T" = paralegal_prompt "C" "T" ∧
    build_prompt "student" "C" "T" = paralegal_prompt "C" "T" :=
  ⟨(role_dispatch_amended "law_student" "C" "T").1 rfl,
   (role_dispatch_amended "paralegal" "C" "T").2 (by decide),
   (role_dispatch_amended "student" "C" "T").2 (by decide)⟩

/-- A 4000-character text, for C2. -/
def longText1 : String := ⟨List.replicate 4000 'a'⟩

/-- The same text with one extra character beyond position 4000, for C2. -/
def longText2 : String := ⟨List.replicate 4000 'a' ++ ['Z']⟩

/-- A valid request uploading `longText1`, for C2. -/
def reqLong1 : ReqNew :=
  { contentLength := 0
    hasFile := true
    filename := "long.pdf"
    roleParam := some "law_student"
    caseNameParam := some "Case"
    extraction := .extracted longText1
    api := .ok ⟨"a", "gpt-4", []⟩ }

/-- The same request uploading `longText2`, for C2. -/
def reqLong2 : ReqNew := { reqLong1 with extraction := .extracted longText2 }

set_option maxRecDepth 10000 in
/-- Counterexample to C2 as stated: two extracted texts agreeing on their
first 4000 characters (the largest budget the claim allows) yield
different prompts from the src/app_new.py handler, so a character beyond
the budget reaches the prompt — that handler interpolates the full text. -/
theorem truncation_counterexample :
    longText1.data.take 4000 = longText2.data.take 4000 ∧
    (generate_irac (fun s => s) [] 0 reqLong1).promptSent ≠
      (generate_irac (fun s => s) [] 0 reqLong2).promptSent := by
  constructor
  · have hL : longText1.data.length = 4000 := by
      rw [show longText1.data = List.replicate 4000 'a' from rfl, List.length_replicate]
    rw [← hL, show longText2.data = longText1.data ++ ['Z'] from rfl,
      List.take_append_of_le_length (le_refl _)]
  · have hb1 : pyStrip longText1 ≠ "" := by decide
    have hb2 : pyStrip longText2 ≠ "" := by decide
    have e1 := generate_irac_success (fun s => s) [] 0 reqLong1 longText1 ⟨"a", "gpt-4", []⟩
      (by decide) rfl rfl hb1 rfl
    have e2 := generate_irac_success (fun s => s) [] 0 reqLong2 longText2 ⟨"a", "gpt-4", []⟩
      (by decide) rfl rfl hb2 rfl
    rw [e1, e2]
    dsimp only [reqLong1, reqLong2, request_role, request_case_name]
    simp only [build_prompt, Option.getD_some, ne_eq, Option.some.injEq, reduceIte]
    intro h
    have hd := congrArg String.data h
    simp only [student_prompt, data_append] at hd
    have ht := List.append_cancel_left (List.append_cancel_right hd)
    have hlen := congrArg List.length ht
    rw [show longText1.data = List.replicate 4000 'a' from rfl,
        show longText2.data = List.replicate 4000 'a' ++ ['Z'] from rfl,
        List.length_append, List.length_replicate] at hlen
    simp at hlen

set_option maxRecDepth 10000 in
/-- Claim C2 (amended): the reachable src/app.py prompt interpolates only
`case_text[:3000]`, so it depends on at most the first 3000 characters of
the extracted text; the src/app_new.py templates interpolate the entire
text, which appears in the prompt unabridged. -/
theorem truncation_amended :
    (∀ case_name role t1 t2 : String, t1.data.take 3000 = t2.data.take 3000 →
       simple_prompt case_name role t1 = simple_prompt case_name role t2) ∧
    (∀ role case_name text : String,
       ∃ u v : List Char, u ++ text.data ++ v = (build_prompt role case_name text).data) := by
  constructor
  · intro cn r t1 t2 h
    simp only [simple_prompt, pySlice, h]
  · intro r cn t
    unfold build_prompt
    split
    · refine ⟨("Generate a detailed IRAC analysis for the following case: " ++ cn ++
          "\n            \n            ").data,
        ("\n            \n            Please structure your response with these sections:\n            1. Case Citation\n            2. Procedural History\n            3. Issues\n            4. Rules\n            5. Analysis\n            6. Conclusion\n            7. Significance\n            8. Related Cases\n            \n            Include proper legal citations and analysis.").data, ?_⟩
      simp only [student_prompt, data_append, List.append_assoc]
    · refine ⟨("Create a concise case summary for " ++ cn ++ " with these sections:" ++
          "\n            \n            ").data,
        ("\n            \n            1. Case Citation\n            2. Key Facts\n            3. Holding\n            4. Rule of Law\n            5. Practical Implications\n            6. Checklist for Use\n            \n            Focus on practical applications and use bullet points for readability.").data, ?_⟩
      simp only [paralegal_prompt, data_append, List.append_assoc]

/-- Witness for C2 (amended): concrete instances of both conjuncts. -/
theorem truncation_amended_witness :
    simple_prompt "C" "student" "short text" = simple_prompt "C" "student" "short text" ∧
    ∃ u v : List Char, u ++ ("TEXT".data) ++ v = (build_prompt "paralegal" "C" "TEXT").data :=
  ⟨truncation_amended.1 "C" "student" "short text" "short text" rfl,
   truncation_amended.2 "paralegal" "C" "TEXT"⟩

/-- A valid request in which the completion client raises an
authentication failure, for C3. -/
def reqAuthFail : ReqNew :=
  { contentLength := 0
    hasFile := true
    filename := "case.pdf"
    roleParam := some "law_student"
    caseNameParam := some "Smith v. Jones"
    extraction := .extracted "Some case text"
    api := .fail ⟨.auth, "Incorrect API key provided"⟩ }

/-- Counterexample to C3 as stated: on an authentication failure of the
completion client, the src/app_new.py handler answers 500 (its generic
OpenAI `except Exception` branch), not 401. -/
theorem auth_failure_counterexample :
    reqAuthFail.api = .fail ⟨.auth, "Incorrect API key provided"⟩ ∧
    (generate_irac (fun s => s) [] 0 reqAuthFail).status = 500 ∧
    (generate_irac (fun s => s) [] 0 reqAuthFail).status ≠ 401 := by
  refine ⟨rfl, ?_, ?_⟩ <;> decide

/-- Claim C3 (amended): whenever the completion client is invoked and
raises — any failure class, authentication included — the handler answers
500 with the fixed error body and no analysis payload. -/
theorem api_failure_gives_500 (md5hex : String → String) (c : Cache) (now : Nat)
    (req : ReqNew) (e : ApiErr) (hapi : req.api = .fail e)
    (hcalled : (generate_irac md5hex c now req).apiCalled = true) :
    (generate_irac md5hex c now req).status = 500 ∧
    (generate_irac md5hex c now req).body =
      .errMsg "Error generating analysis. Please try again later." ∧
    ∀ v, (generate_irac md5hex c now req).body ≠ .result v := by
  rcases generate_irac_cases md5hex c now req _ rfl with
    ⟨_, hout⟩ | ⟨_, _, hout⟩ | ⟨_, _, _, hout⟩ | ⟨_, _, _, _, hout⟩ |
    ⟨_, v, _, hout⟩ | ⟨_, _, _, hout⟩ | ⟨_, _, _, hout⟩ |
    ⟨_, _, t, e', ht, hb, hae, hout⟩ | ⟨_, _, t, s, ht, hb, hae, hout⟩
  · rw [hout] at hcalled; simp at hcalled
  · rw [hout] at hcalled; simp at hcalled
  · rw [hout] at hcalled; simp at hcalled
  · rw [hout] at hcalled; simp at hcalled
  · rw [hout] at hcalled; simp at hcalled
  · rw [hout] at hcalled; simp at hcalled
  · rw [hout] at hcalled; simp at hcalled
  · rw [hout]
    exact ⟨rfl, rfl, fun v h => Body.noConfusion h⟩
  · rw [hapi] at hae; exact ApiOutcome.noConfusion hae

/-- Witness for C3 (amended) at the concrete authentication failure. -/
theorem api_failure_gives_500_witness :
    (generate_irac (fun s => s) [] 0 reqAuthFail).status = 500 ∧
    (generate_irac (fun s => s) [] 0 reqAuthFail).body =
      .errMsg "Error generating analysis. Please try again later." ∧
    ∀ v, (generate_irac (fun s => s) [] 0 reqAuthFail).body ≠ .result v :=
  api_failure_gives_500 (fun s => s) [] 0 reqAuthFail
    ⟨.auth, "Incorrect API key provided"⟩ rfl (by decide)

/-- The error strings the src/app_new.py handler can put in an `error`
body: the string literals of its return statements. -/
def handler_error_strings : List String :=
  ["File too large", "No file part", "No selected file",
   "Invalid file type. Only PDF files are allowed.",
   "Error processing PDF file",
   "The uploaded PDF appears to be empty or could not be read",
   "Error generating analysis. Please try again later.",
   "An unexpected error occurred"]

/-- The error strings the reachable part of the src/app.py handler can put
in an `error` body. -/
def old_handler_error_strings : List String :=
  ["Failed to process request", "No file provided", "File must be a PDF",
   "Could not read PDF content"]

/-- Complete case analysis of the reachable outputs of the src/app.py handler. -/
theorem generate_irac_old_cases (req : ReqOld) :
    generate_irac_old req = ⟨500, .errMsg "Failed to process request", false⟩ ∨
    generate_irac_old req = ⟨400, .errMsg "No file provided", false⟩ ∨
    generate_irac_old req = ⟨400, .errMsg "File must be a PDF", false⟩ ∨
    generate_irac_old req = ⟨400, .errMsg "Could not read PDF content", false⟩ ∨
    generate_irac_old req = ⟨500, .errMsg "Failed to process request", true⟩ ∨
    (∃ s, req.api = .ok s ∧
      generate_irac_old req = ⟨200, .summary (pyStrip s.content), true⟩) := by
  unfold generate_irac_old generate_irac_try
  dsimp only
  split
  next h1 => exact Or.inl rfl
  next h1 =>
    split
    next h2 => exact Or.inr (Or.inl rfl)
    next h2 =>
      split
      next h3 => exact Or.inr (Or.inr (Or.inl rfl))
      next h3 =>
        split
        next h4 => exact Or.inr (Or.inr (Or.inr (Or.inl rfl)))
        next h4 =>
          split
          next e he => exact Or.inr (Or.inr (Or.inr (Or.inr (Or.inl rfl))))
          next s hs => exact Or.inr (Or.inr (Or.inr (Or.inr (Or.inr ⟨s, hs, rfl⟩))))

/-- Claim C8: every non-success response of either handler carries an
`error` body drawn from a fixed list of string literals, and neither
output of either handler depends on the message text of the exception causing
the failure — internal exception text cannot reach the client. -/
theorem error_bodies_never_leak :
    (∀ (md5hex : String → String) (c : Cache) (now : Nat) (req : ReqNew),
       (generate_irac md5hex c now req).status ≠ 200 →
       ∃ e, (generate_irac md5hex c now req).body = .errMsg e ∧
         e ∈ handler_error_strings) ∧
    (∀ (md5hex : String → String) (c : Cache) (now : Nat) (req : ReqNew)
       (k : ApiErrKind) (m1 m2 : String),
       generate_irac md5hex c now { req with api := .fail ⟨k, m1⟩ } =
         generate_irac md5hex c now { req with api := .fail ⟨k, m2⟩ }) ∧
    (∀ (md5hex : String → String) (c : Cache) (now : Nat) (req : ReqNew)
       (m1 m2 : String),
       generate_irac md5hex c now { req with extraction := .failed m1 } =
         generate_irac md5hex c now { req with extraction := .failed m2 }) ∧
    (∀ req : ReqOld, (generate_irac_old req).status ≠ 200 →
       ∃ e, (generate_irac_old req).body = .errMsg e ∧
         e ∈ old_handler_error_strings) ∧
    (∀ (req : ReqOld) (e1 e2 : ApiErr),
       generate_irac_old { req with api := .fail e1 } =
         generate_irac_old { req with api := .fail e2 }) := by
  refine ⟨?_, ?_, ?_, ?_, ?_⟩
  · intro md5hex c now req hst
    rcases generate_irac_cases md5hex c now req _ rfl with
      ⟨_, hout⟩ | ⟨_, _, hout⟩ | ⟨_, _, _, hout⟩ | ⟨_, _, _, _, hout⟩ |
      ⟨_, v, _, hout⟩ | ⟨_, _, _, hout⟩ | ⟨_, _, _, hout⟩ |
      ⟨_, _, t, e', ht, hb, hae, hout⟩ | ⟨_, _, t, s, ht, hb, hae, hout⟩
    · exact ⟨"File too large", by rw [hout], by decide⟩
    · exact ⟨"No file part", by rw [hout], by decide⟩
    · exact ⟨"No selected file", by rw [hout], by decide⟩
    · exact ⟨"Invalid file type. Only PDF files are allowed.", by rw [hout], by decide⟩
    · rw [hout] at hst; simp at hst
    · exact ⟨"Error processing PDF file", by rw [hout], by decide⟩
    · exact ⟨"The uploaded PDF appears to be empty or could not be read",
        by rw [hout], by decide⟩
    · exact ⟨"Error generating analysis. Please try again later.",
        by rw [hout], by decide⟩
    · rw [hout] at hst; simp at hst
  · intro md5hex c now req k m1 m2
    unfold generate_irac
    dsimp only [request_role, request_case_name, request_cache_key]
  · intro md5hex c now req m1 m2
    unfold generate_irac
    dsimp only [request_role, request_case_name, request_cache_key]
  · intro req hst
    rcases generate_irac_old_cases req with
      h | h | h | h | h | ⟨s, hs, h⟩
    · exact ⟨"Failed to process request", by rw [h], by decide⟩
    · exact ⟨"No file provided", by rw [h], by decide⟩
    · exact ⟨"File must be a PDF", by rw [h], by decide⟩
    · exact ⟨"Could not read PDF content", by rw [h], by decide⟩
    · exact ⟨"Failed to process request", by rw [h], by decide⟩
    · rw [h] at hst; simp at hst
  · intro req e1 e2
    unfold generate_irac_old generate_irac_try
    dsimp only

/-- Witness for C8: concrete non-success runs of both handlers carry one
of the fixed error strings. -/
theorem error_bodies_never_leak_witness :
    (∃ e, (generate_irac (fun s => s) [] 0 reqBriefTxt).body = .errMsg e ∧
      e ∈ handler_error_strings) ∧
    (∃ e, (generate_irac_old
        { contentLength := 0, hasPdf := false, filename := "", pdfBytes := "",
          roleParam := none, caseNameParam := none, docketParam := none,
          api := .ok ⟨"c", "m", []⟩ }).body = .errMsg e ∧
      e ∈ old_handler_error_strings) :=
  ⟨error_bodies_never_leak.1 (fun s => s) [] 0 reqBriefTxt (by decide),
   error_bodies_never_leak.2.2.2.1 _ (by decide)⟩

/-- Claim C10: if every cache entry has `cached = false` (true of the
empty initial cache), then every successful response of the handler —
fresh or served from the cache — has `cached = false`, and the cache
keeps the property: a client can never observe `cached: true`. -/
theorem cached_field_always_false (md5hex : String → String) (c : Cache)
    (now : Nat) (req : ReqNew) (hinv : ∀ e ∈ c, e.val.cached = false) :
    (∀ v, (generate_irac md5hex c now req).body = .result v → v.cached = false) ∧
    (∀ e ∈ (generate_irac md5hex c now req).cache, e.val.cached = false) := by
  rcases generate_irac_cases md5hex c now req _ rfl with
    ⟨_, hout⟩ | ⟨_, _, hout⟩ | ⟨_, _, _, hout⟩ | ⟨_, _, _, _, hout⟩ |
    ⟨_, v, hl, hout⟩ | ⟨_, _, _, hout⟩ | ⟨_, _, _, hout⟩ |
    ⟨_, _, t, e', ht, hb, hae, hout⟩ | ⟨_, _, t, s, ht, hb, hae, hout⟩
  · rw [hout]; exact ⟨fun v h => Body.noConfusion h, hinv⟩
  · rw [hout]; exact ⟨fun v h => Body.noConfusion h, hinv⟩
  · rw [hout]; exact ⟨fun v h => Body.noConfusion h, hinv⟩
  · rw [hout]; exact ⟨fun v h => Body.noConfusion h, hinv⟩
  · rw [hout]
    refine ⟨fun v' h => ?_, hinv⟩
    obtain ⟨e, he, hev⟩ := cacheLookup_mem c now _ v hl
    rw [← Body.result.inj h, ← hev]
    exact hinv e he
  · rw [hout]; exact ⟨fun v h => Body.noConfusion h, hinv⟩
  · rw [hout]; exact ⟨fun v h => Body.noConfusion h, hinv⟩
  · rw [hout]; exact ⟨fun v h => Body.noConfusion h, hinv⟩
  · rw [hout]
    refine ⟨fun v' h => ?_, fun e he => ?_⟩
    · rw [← Body.result.inj h]
    · simp only [cachePut] at he
      rcases List.mem_cons.mp he with he1 | he2
      · rw [he1]
      · exact hinv e (List.mem_filter.mp he2).1

/-- A valid success-path request, for the C10 witness. -/
def reqFresh : ReqNew :=
  { contentLength := 0
    hasFile := true
    filename := "fresh.pdf"
    roleParam := some "paralegal"
    caseNameParam := some "Marbury v. Madison"
    extraction := .extracted "Judicial review."
    api := .ok ⟨"the analysis", "gpt-4", [("total_tokens", 42)]⟩ }

/-- Witness for C10 starting from the empty cache. -/
theorem cached_field_always_false_witness :
    (∀ v, (generate_irac (fun s => s) [] 0 reqFresh).body = .result v →
       v.cached = false) ∧
    (∀ e ∈ (generate_irac (fun s => s) [] 0 reqFresh).cache, e.val.cached = false) :=
  cached_field_always_false (fun s => s) [] 0 reqFresh (by simp)

/-- Claim C1: a request whose fingerprint has an unexpired cache entry is
answered from the cache with no completion call (first conjunct); in
particular, a second request identical to a first successful one,
arriving within the TTL, is served the first response from the cache with
neither extraction nor a second remote call (second conjunct). -/
theorem cache_hit_no_second_call :
    (∀ (md5hex : String → String) (c : Cache) (now : Nat) (req : ReqNew)
       (v : IracResult), validated req →
       cacheLookup c now (request_cache_key md5hex req) = some v →
       generate_irac md5hex c now req = ⟨200, .result v, c, false, false, none⟩) ∧
    (∀ (md5hex : String → String) (c : Cache) (t1 t2 : Nat) (req : ReqNew)
       (text : String) (s : ApiOk), validated req →
       cacheLookup c t1 (request_cache_key md5hex req) = none →
       req.extraction = .extracted text → pyStrip text ≠ "" → req.api = .ok s →
       t2 < t1 + TTL →
       (generate_irac md5hex (generate_irac md5hex c t1 req).cache t2 req).status = 200 ∧
       (generate_irac md5hex (generate_irac md5hex c t1 req).cache t2 req).body =
         (generate_irac md5hex c t1 req).body ∧
       (generate_irac md5hex (generate_irac md5hex c t1 req).cache t2 req).apiCalled = false ∧
       (generate_irac md5hex (generate_irac md5hex c t1 req).cache t2 req).extractCalled
         = false) := by
  constructor
  · exact fun md5hex c now req v hv hhit => generate_irac_hit md5hex c now req v hv hhit
  · intro md5hex c t1 t2 req text s hv hmiss ht hb ha htime
    have h1 := generate_irac_success md5hex c t1 req text s hv hmiss ht hb ha
    rw [h1]
    have hhit2 : cacheLookup
        (cachePut c (request_cache_key md5hex req) ⟨s.content, s.model, s.usage, false⟩ t1)
        t2 (request_cache_key md5hex req) = some ⟨s.content, s.model, s.usage, false⟩ :=
      cacheLookup_put_recent _ _ _ _ _ htime
    have h2 := generate_irac_hit md5hex _ t2 req _ hv hhit2
    rw [show (⟨200, .result ⟨s.content, s.model, s.usage, false⟩,
        cachePut c (request_cache_key md5hex req) ⟨s.content, s.model, s.usage, false⟩ t1,
        true, true,
        some (build_prompt (request_role req) (request_case_name req) text)⟩ :
          HandlerOutput).cache =
      cachePut c (request_cache_key md5hex req) ⟨s.content, s.model, s.usage, false⟩ t1
      from rfl, h2]
    exact ⟨rfl, rfl, rfl, rfl⟩

/-- A valid request for the C1 witness. -/
def reqRepeat : ReqNew :=
  { contentLength := 0
    hasFile := true
    filename := "repeat.pdf"
    roleParam := some "law_student"
    caseNameParam := some "Baker v. Carr"
    extraction := .extracted "One person one vote."
    api := .ok ⟨"irac analysis", "gpt-4", []⟩ }

/-- The value stored for `reqRepeat`, for the C1 witness. -/
def reqRepeatVal : IracResult := ⟨"irac analysis", "gpt-4", [], false⟩

/-- A cache already holding an unexpired entry for the fingerprint of
`reqRepeat`, for the C1 witness. -/
def warmCacheC1 : Cache :=
  [⟨request_cache_key (fun s => s) reqRepeat, reqRepeatVal, 300⟩]

/-- Witness for C1: a hit on the warm cache at time 7, and a cold-cache
request at time 0 followed by the identical request at time 100 < TTL. -/
theorem cache_hit_no_second_call_witness :
    generate_irac (fun s => s) warmCacheC1 7 reqRepeat =
      ⟨200, .result reqRepeatVal, warmCacheC1, false, false, none⟩ ∧
    ((generate_irac (fun s => s) (generate_irac (fun s => s) [] 0 reqRepeat).cache
        100 reqRepeat).status = 200 ∧
     (generate_irac (fun s => s) (generate_irac (fun s => s) [] 0 reqRepeat).cache
        100 reqRepeat).body = (generate_irac (fun s => s) [] 0 reqRepeat).body ∧
     (generate_irac (fun s => s) (generate_irac (fun s => s) [] 0 reqRepeat).cache
        100 reqRepeat).apiCalled = false ∧
     (generate_irac (fun s => s) (generate_irac (fun s => s) [] 0 reqRepeat).cache
        100 reqRepeat).extractCalled = false) :=
  ⟨cache_hit_no_second_call.1 (fun s => s) warmCacheC1 7 reqRepeat reqRepeatVal
     (by decide) (by decide),
   cache_hit_no_second_call.2 (fun s => s) [] 0 100 reqRepeat "One person one vote."
     ⟨"irac analysis", "gpt-4", []⟩ (by decide) rfl rfl (by decide) rfl (by decide)⟩

/-- A valid request whose document is corrupted (extraction raises), for C4. -/
def reqCorrupt : ReqNew :=
  { contentLength := 0
    hasFile := true
    filename := "same.pdf"
    roleParam := some "law_student"
    caseNameParam := some "Same Case"
    extraction := .failed "Failed to extract text from PDF"
    api := .fail ⟨.generic, "never reached"⟩ }

/-- A cache already holding an unexpired entry under the fingerprint of
`reqCorrupt` (stored by an earlier request with the same filename, role and
case name but different content), for C4. -/
def warmCacheC4 : Cache :=
  [⟨request_cache_key (fun s => s) reqCorrupt, ⟨"stale analysis", "gpt-4", [], false⟩, 200⟩]

/-- Counterexample to C4 as stated: because the cache is consulted before
extraction and the fingerprint ignores document content, a corrupted
upload whose (filename, role, case name) fingerprint has an unexpired
entry is answered 200 from the cache, not 400. -/
theorem corrupted_upload_counterexample :
    reqCorrupt.extraction = .failed "Failed to extract text from PDF" ∧
    (generate_irac (fun s => s) warmCacheC4 0 reqCorrupt).status = 200 ∧
    (generate_irac (fun s => s) warmCacheC4 0 reqCorrupt).status ≠ 400 := by
  refine ⟨rfl, ?_, ?_⟩ <;> decide

/-- Claim C4 (amended): provided the fingerprint has no unexpired cache
entry, a corrupted or empty/whitespace-only document is answered 400 with
one of the two unreadable/empty messages and the completion client is not
invoked; the reachable src/app.py handler answers every well-formed upload
400 `Could not read PDF content` without invoking the client (its
extractor never yields text: `PdfReader` is unbound there). -/
theorem unreadable_or_empty_gives_400 :
    (∀ (md5hex : String → String) (c : Cache) (now : Nat) (req : ReqNew),
       validated req →
       cacheLookup c now (request_cache_key md5hex req) = none →
       ((∃ m, req.extraction = .failed m) ∨
        (∃ t, req.extraction = .extracted t ∧ pyStrip t = "")) →
       (generate_irac md5hex c now req).status = 400 ∧
       ((generate_irac md5hex c now req).body = .errMsg "Error processing PDF file" ∨
        (generate_irac md5hex c now req).body =
          .errMsg "The uploaded PDF appears to be empty or could not be read") ∧
       (generate_irac md5hex c now req).apiCalled = false) ∧
    (∀ req : ReqOld, req.contentLength ≤ MAX_CONTENT_LENGTH → req.hasPdf = true →
       endswith_pdf req.filename = true →
       generate_irac_old req = ⟨400, .errMsg "Could not read PDF content", false⟩) := by
  constructor
  · intro md5hex c now req hv hmiss hdoc
    obtain ⟨hl, hf, hn, ha⟩ := hv
    rcases hdoc with ⟨m, hm⟩ | ⟨t, ht, hb⟩
    · unfold generate_irac
      rw [if_neg (by omega), if_neg (by simp [hf]), if_neg hn, if_neg (by simp [ha])]
      simp only [hmiss, hm]
      exact ⟨trivial, Or.inl trivial, trivial⟩
    · unfold generate_irac
      rw [if_neg (by omega), if_neg (by simp [hf]), if_neg hn, if_neg (by simp [ha])]
      simp only [hmiss, ht, if_pos hb]
      exact ⟨trivial, Or.inr trivial, trivial⟩
  · intro req h1 h2 h3
    unfold generate_irac_old generate_irac_try
    rw [if_neg (by omega), if_neg (by simp [h2]), if_neg (by simp [h3])]
    rfl

/-- Witness for C4 (amended): the corrupted upload against a cold cache,
and a well-formed upload to the old handler. -/
theorem unreadable_or_empty_gives_400_witness :
    ((generate_irac (fun s => s) [] 0 reqCorrupt).status = 400 ∧
     ((generate_irac (fun s => s) [] 0 reqCorrupt).body =
        .errMsg "Error processing PDF file" ∨
      (generate_irac (fun s => s) [] 0 reqCorrupt).body =
        .errMsg "The uploaded PDF appears to be empty or could not be read") ∧
     (generate_irac (fun s => s) [] 0 reqCorrupt).apiCalled = false) ∧
    generate_irac_old
      { contentLength := 0, hasPdf := true, filename := "well-formed.pdf",
        pdfBytes := "some bytes", roleParam := some "student",
        caseNameParam := some "Case", docketParam := none,
        api := .ok ⟨"c", "m", []⟩ } =
      ⟨400, .errMsg "Could not read PDF content", false⟩ :=
  ⟨unreadable_or_empty_gives_400.1 (fun s => s) [] 0 reqCorrupt (by decide) rfl
     (Or.inl ⟨"Failed to extract text from PDF", rfl⟩),
   unreadable_or_empty_gives_400.2 _ (by decide) rfl (by decide)⟩

end ScotusIrac
